import Mathlib

/-!
Shallow embedding of `src/product/manager/product.js` (class `ProductManager`).

The manager orchestrates three collaborators: a product persistence entity
(`getAll`, `findById`), a rating persistence entity (`getAllByProductId`,
`create`, `findById`) and a realtime notification queue
(`create(event, payload).save()`).  Collaborators are modelled as an
environment of `Except`-returning functions, and every manager operation
returns its result paired with the ordered trace of collaborator
invocations it performed, so that "is invoked exactly once with these
arguments" and "is never invoked" become statements about that trace.
-/

/-- A single field-level validation violation, as collected by Joi when run
with the option that disables early abort. -/
structure FieldError where
  field : String
  message : String
deriving DecidableEq, Repr

/-- The error produced by `validateAddReviewRequest` on failure: the Joi
error object carrying all collected violations, after the manager sets its
`badRequest` flag to `true`. -/
structure ValidationError where
  details : List FieldError
  badRequest : Bool
deriving DecidableEq, Repr

/-- The input shape of a review submission, `{product_id, rating, review}`.
A `none` field models a missing (undefined) property on the JS object. -/
structure ReviewInput where
  product_id : Option Int
  rating : Option Int
  review : Option String
deriving DecidableEq, Repr

/-- Errors propagated by the manager: a tagged validation failure, or an
error bubbled up unchanged from a persistence entity or the queue. -/
inductive Err where
  | validation (e : ValidationError)
  | notFound (msg : String)
  | persistence (msg : String)
  | publication (msg : String)
deriving DecidableEq, Repr

/-- A hydrated rating record as returned by the rating entity's `findById`
(the persisted record, with its generated fields). -/
structure RatingRec where
  id : Nat
  product_id : Int
  rating : Int
  review : String
deriving DecidableEq, Repr

/-- A product record.  Its descriptive attributes are owned by the
persistence layer and opaque to the manager, so they are modelled as an
association list; `ratings` is the transient field the manager attaches. -/
structure Product where
  id : Int
  attrs : List (String × String)
  ratings : Option (List RatingRec)
deriving DecidableEq, Repr

/-- The payload published to the realtime queue by `addRating`:
`{rating: createdRating, product_id: productId}`. -/
structure Payload where
  rating : RatingRec
  product_id : Int
deriving DecidableEq, Repr

/-- One collaborator invocation, with the arguments it was called with. -/
inductive Event where
  | productGetAll
  | productFindById (id : Int)
  | ratingsGetAllByProductId (productId : Int)
  | ratingCreate (productId : Int) (rating : Int) (review : String)
  | ratingFindById (id : Nat)
  | queueCreate (event : String) (payload : Payload)
deriving DecidableEq, Repr

/-- The behaviour of the external collaborators: each function gives the
outcome of the corresponding persistence or queue call. -/
structure Env where
  productGetAll : Except Err (List Product)
  productFindById : Int → Except Err Product
  ratingsGetAllByProductId : Int → Except Err (List RatingRec)
  ratingCreate : Int → Int → String → Except Err Nat
  ratingFindById : Nat → Except Err RatingRec
  queueSave : String → Payload → Except Err Unit

/-- Modelled from the spec: the review schema `src/product/schema/review`
is imported by the manager but its file is not part of the sources, so its
constraints are taken from the spec: `product_id` is a required number,
`rating` is a required number restricted to the schema's allowed range
(`lo` to `hi`), and `review` is required non-empty text.  Violations are
collected for every field (Joi runs with early abort disabled). -/
def reviewFieldErrors (lo hi : Int) (data : ReviewInput) : List FieldError :=
  (match data.product_id with
   | none => [⟨"product_id", "\"product_id\" is required"⟩]
   | some _ => []) ++
  (match data.rating with
   | none => [⟨"rating", "\"rating\" is required"⟩]
   | some r =>
     if lo ≤ r ∧ r ≤ hi then []
     else [⟨"rating", "\"rating\" must be within the allowed range"⟩]) ++
  (match data.review with
   | none => [⟨"review", "\"review\" is required"⟩]
   | some s =>
     if s = "" then [⟨"review", "\"review\" is not allowed to be empty"⟩]
     else [])

/-- `ProductManager.validateAddReviewRequest`: runs Joi validation of the
data against the review schema with early abort disabled; on any error it
sets the error's `badRequest` flag and rejects, otherwise it resolves with
the validated value (Joi returns the input value unchanged here, per the
spec the result carries the same field values). -/
def ProductManager.validateAddReviewRequest (lo hi : Int) (data : ReviewInput) :
    Except ValidationError ReviewInput :=
  let errs := reviewFieldErrors lo hi data
  if errs = [] then .ok data
  else .error ⟨errs, true⟩

/-- `ProductManager.getAll`: awaits the product entity's `getAll` and
returns the products; any error is re-rejected unchanged by the catch. -/
def ProductManager.getAll (env : Env) : Except Err (List Product) × List Event :=
  match env.productGetAll with
  | .ok products => (.ok products, [Event.productGetAll])
  | .error e => (.error e, [Event.productGetAll])

/-- `ProductManager.findById`: fetches the product by id, then fetches all
ratings for that product id and assigns them to the product's `ratings`
field; any error is re-rejected unchanged by the catch. -/
def ProductManager.findById (env : Env) (id : Int) :
    Except Err Product × List Event :=
  match env.productFindById id with
  | .error e => (.error e, [Event.productFindById id])
  | .ok product =>
    match env.ratingsGetAllByProductId id with
    | .error e =>
      (.error e, [Event.productFindById id, Event.ratingsGetAllByProductId id])
    | .ok ratings =>
      (.ok { product with ratings := some ratings },
       [Event.productFindById id, Event.ratingsGetAllByProductId id])

/-- `ProductManager.publishToRealtimeQueue`: awaits
`realtimeQueue.create(event, payload).save()`. -/
def ProductManager.publishToRealtimeQueue (env : Env) (event : String)
    (payload : Payload) : Except Err Unit × List Event :=
  (env.queueSave event payload, [Event.queueCreate event payload])

/-- `ProductManager.addRating`: validates `{product_id, rating, review}`
(discarding the validated value), creates the rating, re-fetches it by the
created id, publishes `product-rating:added` with payload
`{rating: createdRating, product_id: productId}`, and returns the
re-fetched rating; any error is re-rejected unchanged by the catch. -/
def ProductManager.addRating (lo hi : Int) (env : Env) (productId rating : Int)
    (review : String) : Except Err RatingRec × List Event :=
  match ProductManager.validateAddReviewRequest lo hi
      ⟨some productId, some rating, some review⟩ with
  | .error e => (.error (Err.validation e), [])
  | .ok _ =>
    match env.ratingCreate productId rating review with
    | .error e => (.error e, [Event.ratingCreate productId rating review])
    | .ok createdRatingId =>
      match env.ratingFindById createdRatingId with
      | .error e =>
        (.error e,
         [Event.ratingCreate productId rating review,
          Event.ratingFindById createdRatingId])
      | .ok createdRating =>
        let pub := ProductManager.publishToRealtimeQueue env
          "product-rating:added" ⟨createdRating, productId⟩
        let trace :=
          [Event.ratingCreate productId rating review,
           Event.ratingFindById createdRatingId] ++ pub.2
        match pub.1 with
        | .error e => (.error e, trace)
        | .ok _ => (.ok createdRating, trace)

/-- The hydrated rating used by the concrete sample environments. -/
def sampleRating : RatingRec := ⟨100, 1, 5, "Great product"⟩

/-- A sample environment in which every collaborator call succeeds. -/
def okEnv : Env where
  productGetAll := .ok [⟨1, [("name", "Widget")], none⟩]
  productFindById := fun i => .ok ⟨i, [("name", "Widget")], none⟩
  ratingsGetAllByProductId := fun _ => .ok [sampleRating]
  ratingCreate := fun _ _ _ => .ok 100
  ratingFindById := fun i =>
    if i = 100 then .ok sampleRating else .error (.notFound "rating not found")
  queueSave := fun _ _ => .ok ()

/-- A sample environment in which the rating entity's `create` fails. -/
def createFailEnv : Env :=
  { okEnv with ratingCreate := fun _ _ _ => .error (.persistence "create failed") }

/-- A sample environment in which the queue's `save` fails. -/
def queueFailEnv : Env :=
  { okEnv with queueSave := fun _ _ => .error (.publication "queue down") }

/-- A sample environment in which the product lookup fails with not-found. -/
def productMissingEnv : Env :=
  { okEnv with productFindById := fun _ => .error (.notFound "product not found") }

/-- C1: when validation succeeds and all collaborators succeed, `addRating`
performs exactly three collaborator invocations, in order: the rating
persistence `create` with the caller's `productId`, `rating`, `review`;
the rating `findById` with the id returned by `create`; and the queue
`create` with event `"product-rating:added"` and payload
`{rating: hydrated, product_id: productId}` — and it returns the hydrated
rating obtained from `findById`. -/
theorem addRating_success (lo hi : Int) (env : Env) (pid r : Int) (rev : String)
    (cid : Nat) (hydrated : RatingRec)
    (hval : reviewFieldErrors lo hi ⟨some pid, some r, some rev⟩ = [])
    (hcreate : env.ratingCreate pid r rev = .ok cid)
    (hfind : env.ratingFindById cid = .ok hydrated)
    (hqueue : env.queueSave "product-rating:added" ⟨hydrated, pid⟩ = .ok ()) :
    ProductManager.addRating lo hi env pid r rev =
      (.ok hydrated,
       [Event.ratingCreate pid r rev, Event.ratingFindById cid,
        Event.queueCreate "product-rating:added" ⟨hydrated, pid⟩]) := by
  simp [ProductManager.addRating, ProductManager.validateAddReviewRequest,
    ProductManager.publishToRealtimeQueue, hval, hcreate, hfind, hqueue]

/-- Witness for C1 at `addRating(1, 5, "Great product")` in the
all-success environment with schema range 1..5. -/
theorem addRating_success_witness :
    ProductManager.addRating 1 5 okEnv 1 5 "Great product" =
      (.ok sampleRating,
       [Event.ratingCreate 1 5 "Great product", Event.ratingFindById 100,
        Event.queueCreate "product-rating:added" ⟨sampleRating, 1⟩]) :=
  addRating_success 1 5 okEnv 1 5 "Great product" 100 sampleRating
    (by decide) rfl rfl rfl

/-- C2: the queue is only ever invoked after the rating `create` and the
re-fetch `findById` have both succeeded: if a queue invocation occurs in a
run of `addRating`, then `create` returned some id `cid` successfully,
`findById cid` returned a hydrated rating successfully, and the run's full
trace places the queue invocation strictly after both.  In particular, if
`create` fails, no queue event can be in the trace. -/
theorem addRating_queue_after_create (lo hi : Int) (env : Env) (pid r : Int)
    (rev : String) (ev : String) (p : Payload)
    (hmem : Event.queueCreate ev p ∈ (ProductManager.addRating lo hi env pid r rev).2) :
    ∃ cid hydrated, env.ratingCreate pid r rev = .ok cid ∧
      env.ratingFindById cid = .ok hydrated ∧
      (ProductManager.addRating lo hi env pid r rev).2 =
        [Event.ratingCreate pid r rev, Event.ratingFindById cid,
         Event.queueCreate "product-rating:added" ⟨hydrated, pid⟩] := by
  unfold ProductManager.addRating at *
  cases hv : ProductManager.validateAddReviewRequest lo hi
      ⟨some pid, some r, some rev⟩ with
  | error e => simp [hv] at hmem
  | ok v =>
    cases hc : env.ratingCreate pid r rev with
    | error e => simp [hv, hc] at hmem
    | ok cid =>
      cases hf : env.ratingFindById cid with
      | error e => simp [hv, hc, hf] at hmem
      | ok hydrated =>
        refine ⟨cid, hydrated, rfl, hf, ?_⟩
        cases hq : env.queueSave "product-rating:added" ⟨hydrated, pid⟩ with
        | error e =>
          simp [hv, hc, hf, hq, ProductManager.publishToRealtimeQueue]
        | ok u =>
          simp [hv, hc, hf, hq, ProductManager.publishToRealtimeQueue]

/-- Witness for C2: in the all-success run of `addRating(1, 5, "Great
product")` the queue event is in the trace, so the theorem yields the
successful `create` and `findById` outcomes. -/
theorem addRating_queue_after_create_witness :
    ∃ cid hydrated, okEnv.ratingCreate 1 5 "Great product" = .ok cid ∧
      okEnv.ratingFindById cid = .ok hydrated ∧
      (ProductManager.addRating 1 5 okEnv 1 5 "Great product").2 =
        [Event.ratingCreate 1 5 "Great product", Event.ratingFindById cid,
         Event.queueCreate "product-rating:added" ⟨hydrated, 1⟩] :=
  addRating_queue_after_create 1 5 okEnv 1 5 "Great product"
    "product-rating:added" ⟨sampleRating, 1⟩ (by decide)

/-- C3: when validation fails, `addRating` rejects with the validation
error, whose `badRequest` flag is set and whose details are all collected
violations, and the trace is empty: no persistence call and no queue call
is ever made. -/
theorem addRating_validation_failure (lo hi : Int) (env : Env) (pid r : Int)
    (rev : String)
    (hbad : reviewFieldErrors lo hi ⟨some pid, some r, some rev⟩ ≠ []) :
    ProductManager.addRating lo hi env pid r rev =
      (.error (Err.validation
        ⟨reviewFieldErrors lo hi ⟨some pid, some r, some rev⟩, true⟩), []) := by
  simp [ProductManager.addRating, ProductManager.validateAddReviewRequest, hbad]

/-- Witness for C3 at `addRating(1, 6, "Great product")` with schema range
1..5: the rating is out of range, the call rejects with the bad-request
validation error and the trace is empty. -/
theorem addRating_validation_failure_witness :
    ProductManager.addRating 1 5 okEnv 1 6 "Great product" =
      (.error (Err.validation
        ⟨reviewFieldErrors 1 5 ⟨some 1, some 6, some "Great product"⟩, true⟩),
       []) :=
  addRating_validation_failure 1 5 okEnv 1 6 "Great product" (by decide)

/-- C4: on any input violating the schema, `validateAddReviewRequest`
fails with an error whose `badRequest` flag is set and whose details are
exactly the collected violations of all fields: a missing `product_id`,
a missing `rating`, an out-of-range `rating` and a missing `review` each
contribute their own entry, so no violation is dropped in favour of an
earlier one. -/
theorem validateAddReviewRequest_collects_all (lo hi : Int) (data : ReviewInput)
    (hbad : reviewFieldErrors lo hi data ≠ []) :
    ProductManager.validateAddReviewRequest lo hi data =
      .error ⟨reviewFieldErrors lo hi data, true⟩ ∧
    (data.product_id = none →
      FieldError.mk "product_id" "\"product_id\" is required" ∈
        reviewFieldErrors lo hi data) ∧
    (data.rating = none →
      FieldError.mk "rating" "\"rating\" is required" ∈
        reviewFieldErrors lo hi data) ∧
    (∀ r, data.rating = some r → ¬(lo ≤ r ∧ r ≤ hi) →
      FieldError.mk "rating" "\"rating\" must be within the allowed range" ∈
        reviewFieldErrors lo hi data) ∧
    (data.review = none →
      FieldError.mk "review" "\"review\" is required" ∈
        reviewFieldErrors lo hi data) := by
  refine ⟨by simp [ProductManager.validateAddReviewRequest, hbad], ?_, ?_, ?_, ?_⟩
  · intro hp
    simp [reviewFieldErrors, hp]
  · intro hr
    simp [reviewFieldErrors, hr]
  · intro r hr hout
    simp [reviewFieldErrors, hr, hout]
  · intro hv
    simp [reviewFieldErrors, hv]

/-- Witness for C4 at the empty submission `{}` (all three fields missing)
with schema range 1..5: the error carries all three field violations. -/
theorem validateAddReviewRequest_collects_all_witness :
    ProductManager.validateAddReviewRequest 1 5 ⟨none, none, none⟩ =
      .error ⟨reviewFieldErrors 1 5 ⟨none, none, none⟩, true⟩ ∧
    ((⟨none, none, none⟩ : ReviewInput).product_id = none →
      FieldError.mk "product_id" "\"product_id\" is required" ∈
        reviewFieldErrors 1 5 ⟨none, none, none⟩) ∧
    ((⟨none, none, none⟩ : ReviewInput).rating = none →
      FieldError.mk "rating" "\"rating\" is required" ∈
        reviewFieldErrors 1 5 ⟨none, none, none⟩) ∧
    (∀ r, (⟨none, none, none⟩ : ReviewInput).rating = some r →
      ¬((1 : Int) ≤ r ∧ r ≤ 5) →
      FieldError.mk "rating" "\"rating\" must be within the allowed range" ∈
        reviewFieldErrors 1 5 ⟨none, none, none⟩) ∧
    ((⟨none, none, none⟩ : ReviewInput).review = none →
      FieldError.mk "review" "\"review\" is required" ∈
        reviewFieldErrors 1 5 ⟨none, none, none⟩) :=
  validateAddReviewRequest_collects_all 1 5 ⟨none, none, none⟩ (by decide)

/-- C5: when validation, `create` and the re-fetch succeed but the queue
publication fails, `addRating` rejects with exactly the queue's error, and
the trace consists of exactly the three collaborator invocations already
made — the created rating stays persisted and no compensating delete or
rollback call of any kind appears. -/
theorem addRating_queue_failure_no_rollback (lo hi : Int) (env : Env)
    (pid r : Int) (rev : String) (cid : Nat) (hydrated : RatingRec) (e : Err)
    (hval : reviewFieldErrors lo hi ⟨some pid, some r, some rev⟩ = [])
    (hcreate : env.ratingCreate pid r rev = .ok cid)
    (hfind : env.ratingFindById cid = .ok hydrated)
    (hqueue : env.queueSave "product-rating:added" ⟨hydrated, pid⟩ = .error e) :
    ProductManager.addRating lo hi env pid r rev =
      (.error e,
       [Event.ratingCreate pid r rev, Event.ratingFindById cid,
        Event.queueCreate "product-rating:added" ⟨hydrated, pid⟩]) := by
  simp [ProductManager.addRating, ProductManager.validateAddReviewRequest,
    ProductManager.publishToRealtimeQueue, hval, hcreate, hfind, hqueue]

/-- Witness for C5 at `addRating(1, 5, "Great product")` in the
queue-failing environment. -/
theorem addRating_queue_failure_no_rollback_witness :
    ProductManager.addRating 1 5 queueFailEnv 1 5 "Great product" =
      (.error (Err.publication "queue down"),
       [Event.ratingCreate 1 5 "Great product", Event.ratingFindById 100,
        Event.queueCreate "product-rating:added" ⟨sampleRating, 1⟩]) :=
  addRating_queue_failure_no_rollback 1 5 queueFailEnv 1 5 "Great product"
    100 sampleRating (Err.publication "queue down") (by decide) rfl rfl rfl

/-- C6: when the product lookup fails, `ProductManager.findById` fails
with that same error and its trace is the single product lookup: the
ratings lookup is never invoked. -/
theorem findById_product_lookup_fails (env : Env) (id : Int) (e : Err)
    (h : env.productFindById id = .error e) :
    ProductManager.findById env id = (.error e, [Event.productFindById id]) := by
  simp [ProductManager.findById, h]

/-- Witness for C6 at `getProductWithRatings(42)` in the environment whose
product lookup fails with not-found. -/
theorem findById_product_lookup_fails_witness :
    ProductManager.findById productMissingEnv 42 =
      (.error (Err.notFound "product not found"), [Event.productFindById 42]) :=
  findById_product_lookup_fails productMissingEnv 42
    (Err.notFound "product not found") rfl

/-- C7: when both lookups succeed, `ProductManager.findById` returns the
fetched product with its `ratings` field set to exactly the list returned
by the ratings lookup, and its `id` and descriptive attributes unchanged. -/
theorem findById_success (env : Env) (id : Int) (p : Product)
    (rs : List RatingRec)
    (hp : env.productFindById id = .ok p)
    (hr : env.ratingsGetAllByProductId id = .ok rs) :
    ProductManager.findById env id =
      (.ok ⟨p.id, p.attrs, some rs⟩,
       [Event.productFindById id, Event.ratingsGetAllByProductId id]) := by
  simp [ProductManager.findById, hp, hr]

/-- Witness for C7 at `getProductWithRatings(7)` in the all-success
environment: the returned product carries exactly the ratings list of the
ratings lookup, in order, and keeps its other fields. -/
theorem findById_success_witness :
    ProductManager.findById okEnv 7 =
      (.ok ⟨7, [("name", "Widget")], some [sampleRating]⟩,
       [Event.productFindById 7, Event.ratingsGetAllByProductId 7]) :=
  findById_success okEnv 7 ⟨7, [("name", "Widget")], none⟩ [sampleRating] rfl rfl

/-- C8: `ProductManager.getAll` is a pure pass-through of the persistence
call: its result equals whatever the product entity's `getAll` produced —
the same sequence unmodified on success, the same error on failure — and
its trace is that single persistence invocation. -/
theorem getAll_passthrough (env : Env) :
    (ProductManager.getAll env).1 = env.productGetAll ∧
    (ProductManager.getAll env).2 = [Event.productGetAll] := by
  cases h : env.productGetAll with
  | ok products => simp [ProductManager.getAll, h]
  | error e => simp [ProductManager.getAll, h]

/-- C9: on a schema-conforming input (all three fields present, rating in
the allowed range, review non-empty), `validateAddReviewRequest` resolves
and its result carries the very same `product_id`, `rating` and `review`
values as the input. -/
theorem validateAddReviewRequest_valid (lo hi : Int) (pid r : Int)
    (rev : String) (hlo : lo ≤ r) (hhi : r ≤ hi) (hrev : rev ≠ "") :
    ProductManager.validateAddReviewRequest lo hi ⟨some pid, some r, some rev⟩ =
      .ok ⟨some pid, some r, some rev⟩ := by
  simp [ProductManager.validateAddReviewRequest, reviewFieldErrors, hlo, hhi, hrev]

/-- Witness for C9 at `{product_id: 1, rating: 5, review: "Great
product"}` with schema range 1..5. -/
theorem validateAddReviewRequest_valid_witness :
    ProductManager.validateAddReviewRequest 1 5
        ⟨some 1, some 5, some "Great product"⟩ =
      .ok ⟨some 1, some 5, some "Great product"⟩ :=
  validateAddReviewRequest_valid 1 5 1 5 "Great product" (by decide) (by decide)
    (by decide)

/-- C10: `addRating` discards the value returned by validation: in a
successful run, the single persistence `create` invocation in the trace
carries the original caller arguments `productId`, `rating`, `review`,
and every queue invocation's payload carries the original `productId` as
its `product_id` field (not a field of the validation result). -/
theorem addRating_uses_original_arguments (lo hi : Int) (env : Env)
    (pid r : Int) (rev : String) (cid : Nat) (hydrated : RatingRec)
    (hval : reviewFieldErrors lo hi ⟨some pid, some r, some rev⟩ = [])
    (hcreate : env.ratingCreate pid r rev = .ok cid)
    (hfind : env.ratingFindById cid = .ok hydrated)
    (hqueue : env.queueSave "product-rating:added" ⟨hydrated, pid⟩ = .ok ()) :
    Event.ratingCreate pid r rev ∈ (ProductManager.addRating lo hi env pid r rev).2 ∧
    (∀ ev q, Event.queueCreate ev q ∈ (ProductManager.addRating lo hi env pid r rev).2 →
      q.product_id = pid) := by
  have htr : ProductManager.addRating lo hi env pid r rev =
      (.ok hydrated,
       [Event.ratingCreate pid r rev, Event.ratingFindById cid,
        Event.queueCreate "product-rating:added" ⟨hydrated, pid⟩]) := by
    simp [ProductManager.addRating, ProductManager.validateAddReviewRequest,
      ProductManager.publishToRealtimeQueue, hval, hcreate, hfind, hqueue]
  rw [htr]
  constructor
  · simp
  · intro ev q hq
    simp at hq
    rw [hq.2]

/-- Witness for C10 at `addRating(1, 5, "Great product")` in the
all-success environment. -/
theorem addRating_uses_original_arguments_witness :
    Event.ratingCreate 1 5 "Great product" ∈
      (ProductManager.addRating 1 5 okEnv 1 5 "Great product").2 ∧
    (∀ ev q, Event.queueCreate ev q ∈
        (ProductManager.addRating 1 5 okEnv 1 5 "Great product").2 →
      q.product_id = 1) :=
  addRating_uses_original_arguments 1 5 okEnv 1 5 "Great product" 100
    sampleRating (by decide) rfl rfl rfl
